import Mathlib

/-!
Verification development for the `runtime_cfparser` crate of the Caffeine
project (a Java class-file decoder built on `nom`).

The decoder of `src/parse.rs` is shallowly embedded here:

* a byte buffer `&[u8]` is a `List Nat` (each element the value of one byte);
* `nom::IResult<&[u8], T>` becomes `PResult T`, recording the remaining input
  and the parsed value on success, and the `nom` error discipline
  (`Err::Error` vs `Err::Failure`, with the `ErrorKind` the source constructs)
  on failure; a Rust panic (slice index out of range, `usize` underflow,
  `todo!()`) is modelled by the separate outcome `PResult.panic`, because a
  panic aborts the process instead of returning an `Err`;
* the recursive attribute/annotation decoders are embedded with an explicit
  fuel parameter (first argument); running out of fuel gives the artificial
  outcome `PResult.outOfFuel`, which never arises when the fuel exceeds the
  recursion depth of the input.  The top-level entry point supplies ample
  fuel (`bytes.length + 4`), as each recursive descent consumes input bytes.

Data-model types mirror `src/spec.rs` constructor by constructor and field by
field (machine integers become `Nat`; `f32`/`f64` fields store the raw bit
pattern the source computes with `from_bits`, which is injective on bits).
-/

namespace Caffeine

/-- The `nom::error::ErrorKind` values the source constructs or receives from
the `nom` primitives it calls. -/
inductive ErrKind where
  | Eof
  | Tag
  | IsNot
  | Verify
deriving DecidableEq, Repr

/-- A `nom` error: `Err::Error` (recoverable) or `Err::Failure` (fatal), each
carrying its `ErrorKind`.  The source also stores an input slice in the error;
no claim observes it, so it is not modelled. -/
inductive PErr where
  | error (k : ErrKind)
  | failure (k : ErrKind)
deriving DecidableEq, Repr

/-- Outcome of running an embedded parser on an input buffer: mirror of
`IResult<&[u8], T>` plus the two extra outcomes explained in the header
(`panic` for a Rust panic, `outOfFuel` for fuel exhaustion of the embedding). -/
inductive PResult (α : Type) where
  | ok (rest : List Nat) (value : α)
  | err (e : PErr)
  | panic
  | outOfFuel

/-- Sequencing of parsers, the embedding of `nom`'s `?` operator: errors,
panics and fuel exhaustion propagate unchanged. -/
def PResult.bind (r : PResult α) (f : List Nat → α → PResult β) : PResult β :=
  match r with
  | .ok rest a => f rest a
  | .err e => .err e
  | .panic => .panic
  | .outOfFuel => .outOfFuel

/-- Map over the parsed value, keeping the remaining input. -/
def PResult.mapv (r : PResult α) (f : α → β) : PResult β :=
  match r with
  | .ok rest a => .ok rest (f a)
  | .err e => .err e
  | .panic => .panic
  | .outOfFuel => .outOfFuel

/-- Embedding of `nom::number::complete::be_u8`: one byte, or an `Eof` error. -/
def be_u8 : List Nat → PResult Nat
  | [] => .err (.error .Eof)
  | b :: rest => .ok rest b

/-- Embedding of `nom::number::complete::be_u16`: two bytes, big endian. -/
def be_u16 : List Nat → PResult Nat
  | b0 :: b1 :: rest => .ok rest (256 * b0 + b1)
  | _ => .err (.error .Eof)

/-- Embedding of `nom::number::complete::be_u32`: four bytes, big endian. -/
def be_u32 : List Nat → PResult Nat
  | b0 :: b1 :: b2 :: b3 :: rest =>
    .ok rest (((256 * b0 + b1) * 256 + b2) * 256 + b3)
  | _ => .err (.error .Eof)

/-- Embedding of `nom::bytes::complete::take(n)`: the next `n` bytes. -/
def takeBytes (n : Nat) (input : List Nat) : PResult (List Nat) :=
  if n ≤ input.length then .ok (input.drop n) (input.take n)
  else .err (.error .Eof)

/-- Embedding of `nom::bytes::complete::tag(t)`: the input must start with the
bytes of `t`; a mismatch (or too little input) is an `ErrorKind::Tag` error. -/
def tagBytes (t : List Nat) (input : List Nat) : PResult (List Nat) :=
  if input.take t.length = t then .ok (input.drop t.length) t
  else .err (.error .Tag)

/-- Apply an element parser `n` times, collecting the results in order: the
iteration performed by `nom::multi::length_count` after it has read the count.
For the recursive (fuelled) element parsers the same loop is re-stated inside
the mutual block below. -/
def countP : Nat → (List Nat → PResult α) → List Nat → PResult (List α)
  | 0, _, input => .ok input []
  | n + 1, p, input =>
    (p input).bind fun rest a =>
    (countP n p rest).mapv fun as => a :: as

/-- Embedding of `nom::multi::length_count(pc, pe)`: read a count with `pc`,
then apply `pe` exactly that many times. -/
def length_count (pc : List Nat → PResult Nat) (pe : List Nat → PResult α)
    (input : List Nat) : PResult (List α) :=
  (pc input).bind fun rest n => countP n pe rest

/-- ASCII bytes of a string literal, used to state the attribute-name
constants the dispatch of `attribute_from_bytes` compares against. -/
def asciiBytes (s : String) : List Nat := s.data.map Char.toNat

/-- Left shift of a `u64` as Rust's `<<` evaluates it in release profile: the
shift amount is masked to its low six bits and the bits shifted beyond
position 63 are discarded.  (In debug profile a shift amount of 64 or more
panics instead; every concrete input used in the theorems below keeps the
shift amount below 64, where the two profiles agree.) -/
def rustShlU64 (x n : Nat) : Nat := (x <<< (n % 64)) % 2 ^ 64

/-- Mirror of `struct Version` in `spec.rs`. -/
structure Version where
  minor : Nat
  major : Nat
deriving DecidableEq, Repr

/-- Mirror of `enum ConstantPoolEntry` in `spec.rs` (tags noted in the
source comments).  `Float`/`Double` store the bit pattern the source feeds to
`f32::from_bits`/`f64::from_bits`, which are bijections on bit patterns. -/
inductive ConstantPoolEntry where
  | Utf8 (bytes : List Nat)
  | Integer (bytes : Nat)
  | Float (value : Nat)
  | Long (value : Nat)
  | Double (value : Nat)
  | Class (name_index : Nat)
  | String (string_index : Nat)
  | FieldRef (class_index name_and_type_index : Nat)
  | MethodRef (class_index name_and_type_index : Nat)
  | InstanceMethodRef (class_index name_and_type_index : Nat)
  | NameAndType (name_index descriptor_index : Nat)
  | MethodHandle (reference_kind reference_index : Nat)
  | MethodType (reference_index : Nat)
  | Dynamic (bootstrap_method_attr_index name_and_type_index : Nat)
  | InvokeDynamic (bootstrap_method_attr_index name_and_type_index : Nat)
  | Module (name_index : Nat)
  | Package (name_index : Nat)
deriving DecidableEq, Repr

/-- Mirror of `struct BootstrapMethod`. -/
structure BootstrapMethod where
  bootstrap_method_ref : Nat
  bootstrap_arguments : List Nat
deriving DecidableEq, Repr

/-- Mirror of `struct ExceptionTableEntry`. -/
structure ExceptionTableEntry where
  start_pc : Nat
  end_pc : Nat
  handler_pc : Nat
  catch_type : Nat
deriving DecidableEq, Repr

/-- Mirror of `struct InnerClass`. -/
structure InnerClass where
  inner_class_info_index : Nat
  outer_class_info_index : Nat
  inner_name_index : Nat
  inner_class_access_flags : Nat
deriving DecidableEq, Repr

/-- Mirror of `struct LineNumber`. -/
structure LineNumber where
  start_pc : Nat
  line_number : Nat
deriving DecidableEq, Repr

/-- Mirror of `struct LocalVar`. -/
structure LocalVar where
  start_pc : Nat
  length : Nat
  index : Nat
deriving DecidableEq, Repr

/-- Mirror of `struct LocalVariable`. -/
structure LocalVariable where
  start_pc : Nat
  length : Nat
  name_index : Nat
  descriptor_index : Nat
  index : Nat
deriving DecidableEq, Repr

/-- Mirror of `struct LocalVariableType`. -/
structure LocalVariableType where
  start_pc : Nat
  length : Nat
  name_index : Nat
  descriptor_index : Nat
  index : Nat
deriving DecidableEq, Repr

/-- Mirror of `struct MethodParameter`. -/
structure MethodParameter where
  name_index : Nat
  access_flags : Nat
deriving DecidableEq, Repr

/-- Mirror of `struct ModuleExports`. -/
structure ModuleExports where
  exports_index : Nat
  exports_flags : Nat
  exports_to_indices : List Nat
deriving DecidableEq, Repr

/-- Mirror of `struct ModuleOpens`. -/
structure ModuleOpens where
  opens_index : Nat
  opens_flags : Nat
  opens_to_indices : List Nat
deriving DecidableEq, Repr

/-- Mirror of `struct ModuleProvides`. -/
structure ModuleProvides where
  provides_index : Nat
  provides_with_indices : List Nat
deriving DecidableEq, Repr

/-- Mirror of `struct ModuleRequires`. -/
structure ModuleRequires where
  requires_index : Nat
  requires_flags : Nat
  requires_version_index : Nat
deriving DecidableEq, Repr

/-- Mirror of `enum TargetInfo` (tag ranges noted in the source comments). -/
inductive TargetInfo where
  | TypeParameter (type_parameter_index : Nat)
  | Supertype (supertype_index : Nat)
  | TypeParameterBound (type_parameter_index bound_index : Nat)
  | Empty
  | FormalParameter (formal_parameter_index : Nat)
  | Throws (throws_type_index : Nat)
  | LocalVarTarget (table : List LocalVar)
  | Catch (exception_table_index : Nat)
  | Offset (offset : Nat)
  | TypeArgument (offset type_argument_index : Nat)
deriving DecidableEq, Repr

/-- Mirror of `struct TypePathSegment`. -/
structure TypePathSegment where
  type_path_kind : Nat
  type_argument_index : Nat
deriving DecidableEq, Repr

/-- Mirror of `struct TypePath`. -/
structure TypePath where
  path : List TypePathSegment
deriving DecidableEq, Repr

/-- Mirror of `enum VerificationTypeInfo` in `spec.rs`. -/
inductive VerificationTypeInfo where
  | DoubleVariable
  | FloatVariable
  | IntegerVariable
  | LongVariable
  | NullVariable
  | ObjectVariable (cpool_index : Nat)
  | TopVariable
  | UninitializedThisVariable
  | UninitializedVariable (offset : Nat)
deriving DecidableEq, Repr

/-- Mirror of `enum StackMapFrame` in `spec.rs`. -/
inductive StackMapFrame where
  | AppendFrame (offset_delta : Nat) (locals : List VerificationTypeInfo)
  | ChopFrame (offset_delta : Nat)
  | FullFrame (offset_delta : Nat) (locals stack : List VerificationTypeInfo)
  | SameFrame
  | SameFrameExtended (offset_delta : Nat)
  | SameLocals1StackItemFrame (stack : VerificationTypeInfo)
  | SameLocals1StackItemFrameExtended (offset_delta : Nat)
      (stack : VerificationTypeInfo)
deriving DecidableEq, Repr

mutual

/-- Mirror of `enum ElementValue` in `spec.rs`.  The source names the nested
annotation variant `Annotation`, which in Lean would clash with the type of
its argument; it is rendered `AnnotationV` here. -/
inductive ElementValue where
  | AnnotationV (a : Annotation)
  | ClassInfo (class_info_index : Nat)
  | ConstValue (const_value_index : Nat)
  | EnumConst (type_name_index const_name_index : Nat)
  | Array (values : List ElementValue)

/-- Mirror of `struct Annotation` in `spec.rs`. -/
inductive Annotation where
  | mk (type_index : Nat) (element_value_pairs : List ElementValuePair)

/-- Mirror of `struct ElementValuePair` in `spec.rs` (field `value`). -/
inductive ElementValuePair where
  | mk (element_name_index : Nat) (value : ElementValue)

/-- Mirror of `struct TypeAnnotation` in `spec.rs`. -/
inductive TypeAnnotation where
  | mk (target_type : Nat) (target_info : TargetInfo) (target_path : TypePath)
      (type_index : Nat) (element_value_pairs : List ElementValuePair)

/-- Mirror of `enum AttributeInfo` in `spec.rs`, one constructor per variant,
in the source's order. -/
inductive AttributeInfo where
  | AnnotationDefault (default_value : ElementValue)
  | BootstrapMethods (bootstrap_methods : List BootstrapMethod)
  | Code (max_stack max_locals : Nat) (code : List Nat)
      (exception_table : List ExceptionTableEntry)
      (attributes : List Attribute)
  | ConstantValue (constantvalue_index : Nat)
  | Deprecated
  | EnclosingMethod (class_index method_index : Nat)
  | Exceptions (exception_index_table : List Nat)
  | InnerClasses (classes : List InnerClass)
  | LineNumberTable (line_number_table : List LineNumber)
  | LocalVariableTable (local_variable_table : List LocalVariable)
  | LocalVariableTypeTable (local_variable_type_table : List LocalVariableType)
  | MethodParameters (parameters : List MethodParameter)
  | Module (module_name_index module_flags module_version_index : Nat)
      (requires : List ModuleRequires) (exports : List ModuleExports)
      (opens : List ModuleOpens) (uses : List Nat)
      (provides : List ModuleProvides)
  | ModuleMainClass (main_class_index : Nat)
  | ModulePackages (package_index : List Nat)
  | NestHost (host_class_index : Nat)
  | NestMembers (classes : List Nat)
  | PermittedSubclasses (classes : List Nat)
  | Record (components : List RecordComponent)
  | RuntimeInvisibleAnnotations (annotations : List Annotation)
  | RuntimeInvisibleParameterAnnotations
      (parameter_annotations : List Annotation)
  | RuntimeInvisibleTypeAnnotations (type_annotations : List TypeAnnotation)
  | RuntimeVisibleAnnotations (annotations : List Annotation)
  | RuntimeVisibleParameterAnnotations
      (parameter_annotations : List Annotation)
  | RuntimeVisibleTypeAnnotations (type_annotations : List TypeAnnotation)
  | Signature (signature_index : Nat)
  | SourceDebugExtension (debug_extension : List Nat)
  | SourceFile (sourcefile_index : Nat)
  | StackMapTable (entries : List StackMapFrame)
  | Synthetic

/-- Mirror of `struct Attribute` in `spec.rs` (single field `info`). -/
inductive Attribute where
  | mk (info : AttributeInfo)

/-- Mirror of `struct RecordComponent` in `spec.rs`. -/
inductive RecordComponent where
  | mk (name_index descriptor_index : Nat) (attributes : List Attribute)

end

/-- Embedding of `classfile_version_from_bytes` in `parse.rs`. -/
def classfile_version_from_bytes (bytes : List Nat) : PResult Version :=
  (be_u16 bytes).bind fun input_1 minor =>
  (be_u16 input_1).bind fun input_2 major =>
  .ok input_2 ⟨minor, major⟩

/-- Embedding of `constant_pool_class_entry_from_bytes`. -/
def constant_pool_class_entry_from_bytes (bytes : List Nat) :
    PResult ConstantPoolEntry :=
  (be_u16 bytes).bind fun input name_index =>
  .ok input (.Class name_index)

/-- Embedding of `constant_pool_double_entry_from_bytes`.  The source builds
the 64-bit pattern with `(high_bytes as u64) << 32 + low_bytes as u64`; in
Rust `+` binds tighter than `<<`, so the expression evaluates as
`high_bytes << (32 + low_bytes)`, modelled by `rustShlU64`. -/
def constant_pool_double_entry_from_bytes (bytes : List Nat) :
    PResult ConstantPoolEntry :=
  (be_u32 bytes).bind fun input_1 high_bytes =>
  (be_u32 input_1).bind fun input_2 low_bytes =>
  .ok input_2 (.Double (rustShlU64 high_bytes (32 + low_bytes)))

/-- Embedding of `constant_pool_dynamic_entry_from_bytes`. -/
def constant_pool_dynamic_entry_from_bytes (bytes : List Nat) :
    PResult ConstantPoolEntry :=
  (be_u16 bytes).bind fun input_1 bootstrap_method_attr_index =>
  (be_u16 input_1).bind fun input_2 name_and_type_index =>
  .ok input_2 (.Dynamic bootstrap_method_attr_index name_and_type_index)

/-- Embedding of `constant_pool_float_entry_from_bytes` (stores the bits the
source passes to `f32::from_bits`). -/
def constant_pool_float_entry_from_bytes (bytes : List Nat) :
    PResult ConstantPoolEntry :=
  (be_u32 bytes).bind fun input float =>
  .ok input (.Float float)

/-- Embedding of `constant_pool_field_ref_entry_from_bytes`. -/
def constant_pool_field_ref_entry_from_bytes (bytes : List Nat) :
    PResult ConstantPoolEntry :=
  (be_u16 bytes).bind fun input_1 class_index =>
  (be_u16 input_1).bind fun input_2 name_and_type_index =>
  .ok input_2 (.FieldRef class_index name_and_type_index)

/-- Embedding of `constant_pool_instance_method_ref_entry_from_bytes`. -/
def constant_pool_instance_method_ref_entry_from_bytes (bytes : List Nat) :
    PResult ConstantPoolEntry :=
  (be_u16 bytes).bind fun input_1 class_index =>
  (be_u16 input_1).bind fun input_2 name_and_type_index =>
  .ok input_2 (.InstanceMethodRef class_index name_and_type_index)

/-- Embedding of `constant_pool_integer_entry_from_bytes`. -/
def constant_pool_integer_entry_from_bytes (bytes : List Nat) :
    PResult ConstantPoolEntry :=
  (be_u32 bytes).bind fun input integer =>
  .ok input (.Integer integer)

/-- Embedding of `constant_pool_invoke_dynamic_entry_from_bytes`. -/
def constant_pool_invoke_dynamic_entry_from_bytes (bytes : List Nat) :
    PResult ConstantPoolEntry :=
  (be_u16 bytes).bind fun input_1 bootstrap_method_attr_index =>
  (be_u16 input_1).bind fun input_2 name_and_type_index =>
  .ok input_2 (.InvokeDynamic bootstrap_method_attr_index name_and_type_index)

/-- Embedding of `constant_pool_long_entry_from_bytes`.  The source computes
`(high_bytes as u64) << 32 + low_bytes as u64`; by Rust operator precedence
(`+` before `<<`) this is `high_bytes << (32 + low_bytes)`, modelled by
`rustShlU64` — the shift amount depends on the data. -/
def constant_pool_long_entry_from_bytes (bytes : List Nat) :
    PResult ConstantPoolEntry :=
  (be_u32 bytes).bind fun input_1 high_bytes =>
  (be_u32 input_1).bind fun input_2 low_bytes =>
  .ok input_2 (.Long (rustShlU64 high_bytes (32 + low_bytes)))

/-- Embedding of `constant_pool_method_handle_entry_from_bytes`. -/
def constant_pool_method_handle_entry_from_bytes (bytes : List Nat) :
    PResult ConstantPoolEntry :=
  (be_u8 bytes).bind fun input_1 reference_kind =>
  (be_u16 input_1).bind fun input_2 reference_index =>
  .ok input_2 (.MethodHandle reference_kind reference_index)

/-- Embedding of `constant_pool_method_type_entry_from_bytes`. -/
def constant_pool_method_type_entry_from_bytes (bytes : List Nat) :
    PResult ConstantPoolEntry :=
  (be_u16 bytes).bind fun input reference_index =>
  .ok input (.MethodType reference_index)

/-- Embedding of `constant_pool_method_ref_entry_from_bytes`. -/
def constant_pool_method_ref_entry_from_bytes (bytes : List Nat) :
    PResult ConstantPoolEntry :=
  (be_u16 bytes).bind fun input_1 class_index =>
  (be_u16 input_1).bind fun input_2 name_and_type_index =>
  .ok input_2 (.MethodRef class_index name_and_type_index)

/-- Embedding of `constant_pool_module_entry_from_bytes`. -/
def constant_pool_module_entry_from_bytes (bytes : List Nat) :
    PResult ConstantPoolEntry :=
  (be_u16 bytes).bind fun input name_index =>
  .ok input (.Module name_index)

/-- Embedding of `constant_pool_name_and_type_entry_from_bytes`. -/
def constant_pool_name_and_type_entry_from_bytes (bytes : List Nat) :
    PResult ConstantPoolEntry :=
  (be_u16 bytes).bind fun input_1 name_index =>
  (be_u16 input_1).bind fun input_2 descriptor_index =>
  .ok input_2 (.NameAndType name_index descriptor_index)

/-- Embedding of `constant_pool_package_entry_from_bytes`. -/
def constant_pool_package_entry_from_bytes (bytes : List Nat) :
    PResult ConstantPoolEntry :=
  (be_u16 bytes).bind fun input name_index =>
  .ok input (.Package name_index)

/-- Embedding of `constant_pool_string_entry_from_bytes`. -/
def constant_pool_string_entry_from_bytes (bytes : List Nat) :
    PResult ConstantPoolEntry :=
  (be_u16 bytes).bind fun input string_index =>
  .ok input (.String string_index)

/-- Embedding of `constant_pool_utf8_entry_from_bytes`. -/
def constant_pool_utf8_entry_from_bytes (bytes : List Nat) :
    PResult ConstantPoolEntry :=
  (be_u16 bytes).bind fun input_1 length =>
  (takeBytes length input_1).bind fun input_2 str_bytes =>
  .ok input_2 (.Utf8 str_bytes)

/-- Embedding of `constant_pool_entry_from_bytes`: a one-byte tag dispatch;
any tag outside the 17 live values (1, 3–12, 15–20) is an
`Err::Error(ErrorKind::Tag)`. -/
def constant_pool_entry_from_bytes (bytes : List Nat) :
    PResult ConstantPoolEntry :=
  (be_u8 bytes).bind fun input tag =>
  match tag with
  | 1 => constant_pool_utf8_entry_from_bytes input
  | 3 => constant_pool_integer_entry_from_bytes input
  | 4 => constant_pool_float_entry_from_bytes input
  | 5 => constant_pool_long_entry_from_bytes input
  | 6 => constant_pool_double_entry_from_bytes input
  | 7 => constant_pool_class_entry_from_bytes input
  | 8 => constant_pool_string_entry_from_bytes input
  | 9 => constant_pool_field_ref_entry_from_bytes input
  | 10 => constant_pool_method_ref_entry_from_bytes input
  | 11 => constant_pool_instance_method_ref_entry_from_bytes input
  | 12 => constant_pool_name_and_type_entry_from_bytes input
  | 15 => constant_pool_method_handle_entry_from_bytes input
  | 16 => constant_pool_method_type_entry_from_bytes input
  | 17 => constant_pool_dynamic_entry_from_bytes input
  | 18 => constant_pool_invoke_dynamic_entry_from_bytes input
  | 19 => constant_pool_module_entry_from_bytes input
  | 20 => constant_pool_package_entry_from_bytes input
  | _ => .err (.error .Tag)

/-- Embedding of `bootstrap_method_from_bytes`. -/
def bootstrap_method_from_bytes (bytes : List Nat) : PResult BootstrapMethod :=
  (be_u16 bytes).bind fun input_1 bootstrap_method_ref =>
  (length_count be_u16 be_u16 input_1).bind fun input_2 bootstrap_arguments =>
  .ok input_2 ⟨bootstrap_method_ref, bootstrap_arguments⟩

/-- Embedding of `exception_table_entry_from_bytes`. -/
def exception_table_entry_from_bytes (bytes : List Nat) :
    PResult ExceptionTableEntry :=
  (be_u16 bytes).bind fun input_1 start_pc =>
  (be_u16 input_1).bind fun input_2 end_pc =>
  (be_u16 input_2).bind fun input_3 handler_pc =>
  (be_u16 input_3).bind fun input_4 catch_type =>
  .ok input_4 ⟨start_pc, end_pc, handler_pc, catch_type⟩

/-- Embedding of `exception_table_from_bytes`. -/
def exception_table_from_bytes (bytes : List Nat) :
    PResult (List ExceptionTableEntry) :=
  length_count be_u16 exception_table_entry_from_bytes bytes

/-- Embedding of `inner_class_from_bytes`. -/
def inner_class_from_bytes (bytes : List Nat) : PResult InnerClass :=
  (be_u16 bytes).bind fun input_1 inner_class_info_index =>
  (be_u16 input_1).bind fun input_2 outer_class_info_index =>
  (be_u16 input_2).bind fun input_3 inner_name_index =>
  (be_u16 input_3).bind fun input_4 inner_class_access_flags =>
  .ok input_4 ⟨inner_class_info_index, outer_class_info_index,
    inner_name_index, inner_class_access_flags⟩

/-- Embedding of `line_number_from_bytes`. -/
def line_number_from_bytes (bytes : List Nat) : PResult LineNumber :=
  (be_u16 bytes).bind fun input_1 start_pc =>
  (be_u16 input_1).bind fun input_2 line_number =>
  .ok input_2 ⟨start_pc, line_number⟩

/-- Embedding of `local_var_from_bytes`. -/
def local_var_from_bytes (bytes : List Nat) : PResult LocalVar :=
  (be_u16 bytes).bind fun input_1 start_pc =>
  (be_u16 input_1).bind fun input_2 length =>
  (be_u16 input_2).bind fun input_3 index =>
  .ok input_3 ⟨start_pc, length, index⟩

/-- Embedding of `local_variable_from_bytes`. -/
def local_variable_from_bytes (bytes : List Nat) : PResult LocalVariable :=
  (be_u16 bytes).bind fun input_1 start_pc =>
  (be_u16 input_1).bind fun input_2 length =>
  (be_u16 input_2).bind fun input_3 name_index =>
  (be_u16 input_3).bind fun input_4 descriptor_index =>
  (be_u16 input_4).bind fun input_5 index =>
  .ok input_5 ⟨start_pc, length, name_index, descriptor_index, index⟩

/-- Embedding of `local_variable_type_from_bytes`. -/
def local_variable_type_from_bytes (bytes : List Nat) :
    PResult LocalVariableType :=
  (be_u16 bytes).bind fun input_1 start_pc =>
  (be_u16 input_1).bind fun input_2 length =>
  (be_u16 input_2).bind fun input_3 name_index =>
  (be_u16 input_3).bind fun input_4 descriptor_index =>
  (be_u16 input_4).bind fun input_5 index =>
  .ok input_5 ⟨start_pc, length, name_index, descriptor_index, index⟩

/-- Embedding of `method_parameter_from_bytes`. -/
def method_parameter_from_bytes (bytes : List Nat) : PResult MethodParameter :=
  (be_u16 bytes).bind fun input_1 name_index =>
  (be_u16 input_1).bind fun input_2 access_flags =>
  .ok input_2 ⟨name_index, access_flags⟩

/-- Embedding of `module_export_from_bytes`. -/
def module_export_from_bytes (bytes : List Nat) : PResult ModuleExports :=
  (be_u16 bytes).bind fun input_1 exports_index =>
  (be_u16 input_1).bind fun input_2 exports_flags =>
  (length_count be_u16 be_u16 input_2).bind fun input_3 exports_to_indices =>
  .ok input_3 ⟨exports_index, exports_flags, exports_to_indices⟩

/-- Embedding of `module_opens_from_bytes`. -/
def module_opens_from_bytes (bytes : List Nat) : PResult ModuleOpens :=
  (be_u16 bytes).bind fun input_1 opens_index =>
  (be_u16 input_1).bind fun input_2 opens_flags =>
  (length_count be_u16 be_u16 input_2).bind fun input_3 opens_to_indices =>
  .ok input_3 ⟨opens_index, opens_flags, opens_to_indices⟩

/-- Embedding of `module_provides_from_bytes`. -/
def module_provides_from_bytes (bytes : List Nat) : PResult ModuleProvides :=
  (be_u16 bytes).bind fun input_1 provides_index =>
  (length_count be_u16 be_u16 input_1).bind fun input_2 provides_with_indices =>
  .ok input_2 ⟨provides_index, provides_with_indices⟩

/-- Embedding of `module_require_from_bytes`. -/
def module_require_from_bytes (bytes : List Nat) : PResult ModuleRequires :=
  (be_u16 bytes).bind fun input_1 requires_index =>
  (be_u16 input_1).bind fun input_2 requires_flags =>
  (be_u16 input_2).bind fun input_3 requires_version_index =>
  .ok input_3 ⟨requires_index, requires_flags, requires_version_index⟩

/-- Embedding of `target_info_from_bytes`: selects the `TargetInfo` shape from
the `target_type` byte; a value outside every range is an
`Err::Error(ErrorKind::Tag)`. -/
def target_info_from_bytes (bytes : List Nat) (target_type : Nat) :
    PResult TargetInfo :=
  match target_type with
  | 0x00 | 0x01 =>
    (be_u8 bytes).bind fun input_1 type_parameter_index =>
    .ok input_1 (.TypeParameter type_parameter_index)
  | 0x10 =>
    (be_u16 bytes).bind fun input_1 supertype_index =>
    .ok input_1 (.Supertype supertype_index)
  | 0x11 | 0x12 =>
    (be_u8 bytes).bind fun input_1 type_parameter_index =>
    (be_u8 input_1).bind fun input_2 bound_index =>
    .ok input_2 (.TypeParameterBound type_parameter_index bound_index)
  | 0x13 | 0x14 | 0x15 => .ok bytes .Empty
  | 0x16 =>
    (be_u8 bytes).bind fun input formal_parameter_index =>
    .ok input (.FormalParameter formal_parameter_index)
  | 0x17 =>
    (be_u16 bytes).bind fun input throws_type_index =>
    .ok input (.Throws throws_type_index)
  | 0x40 | 0x41 =>
    (length_count be_u16 local_var_from_bytes bytes).bind fun input table =>
    .ok input (.LocalVarTarget table)
  | 0x42 =>
    (be_u16 bytes).bind fun input exception_table_index =>
    .ok input (.Catch exception_table_index)
  | 0x43 | 0x44 | 0x45 | 0x46 =>
    (be_u16 bytes).bind fun input offset =>
    .ok input (.Offset offset)
  | 0x47 | 0x48 | 0x49 | 0x4A | 0x4B =>
    (be_u16 bytes).bind fun input_1 offset =>
    (be_u8 input_1).bind fun input_2 type_argument_index =>
    .ok input_2 (.TypeArgument offset type_argument_index)
  | _ => .err (.error .Tag)

/-- Embedding of `type_path_segment_from_bytes`. -/
def type_path_segment_from_bytes (bytes : List Nat) : PResult TypePathSegment :=
  (be_u8 bytes).bind fun input_1 type_path_kind =>
  (be_u8 input_1).bind fun input_2 type_argument_index =>
  .ok input_2 ⟨type_path_kind, type_argument_index⟩

/-- Embedding of `type_path_from_bytes`. -/
def type_path_from_bytes (bytes : List Nat) : PResult TypePath :=
  (length_count be_u8 type_path_segment_from_bytes bytes).bind fun input path =>
  .ok input ⟨path⟩

/-- Modelled from the spec: the Modified-UTF-8 → UTF-8 text converter is an
external collaborator (the `mutf8` crate), not part of this repository's
sources.  §1 and the glossary state that modified UTF-8 agrees with standard
UTF-8 except for the null character and characters outside the basic
multilingual plane; every attribute name the decoder dispatches on is plain
ASCII, where the conversion is the identity.  The converter is therefore
modelled on the ASCII subset: bytes 1–127 convert to themselves, anything
else falls outside the modelled subset. -/
def mutf8_to_utf8 (bs : List Nat) : Option (List Nat) :=
  if ∀ b ∈ bs, 0 < b ∧ b ≤ 127 then some bs else none

/-- Mirror of `struct Field` in `spec.rs`. -/
structure Field where
  access_flags : Nat
  name_index : Nat
  descriptor_index : Nat
  attributes : List Attribute

/-- Mirror of `struct Method` in `spec.rs`. -/
structure Method where
  access_flags : Nat
  name_index : Nat
  descriptor_index : Nat
  attributes : List Attribute

/-- Mirror of `struct Classfile` in `spec.rs`. -/
structure Classfile where
  version : Version
  constant_pool : List ConstantPoolEntry
  access_flags : Nat
  this_class : Nat
  super_class : Nat
  interfaces : List Nat
  fields : List Field
  methods : List Method
  attributes : List Attribute

/-- Embedding of `attribute_bootstrap_methods_from_bytes`. -/
def attribute_bootstrap_methods_from_bytes (bytes : List Nat) :
    PResult AttributeInfo :=
  (length_count be_u16 bootstrap_method_from_bytes bytes).bind
    fun input bootstrap_methods =>
  .ok input (.BootstrapMethods bootstrap_methods)

/-- Embedding of `attribute_constant_value_from_bytes`. -/
def attribute_constant_value_from_bytes (bytes : List Nat) :
    PResult AttributeInfo :=
  (be_u16 bytes).bind fun input constantvalue_index =>
  .ok input (.ConstantValue constantvalue_index)

/-- Embedding of `attribute_enclosing_method_from_bytes`. -/
def attribute_enclosing_method_from_bytes (bytes : List Nat) :
    PResult AttributeInfo :=
  (be_u16 bytes).bind fun input_1 class_index =>
  (be_u16 input_1).bind fun input_2 method_index =>
  .ok input_2 (.EnclosingMethod class_index method_index)

/-- Embedding of `attribute_exceptions_from_bytes`. -/
def attribute_exceptions_from_bytes (bytes : List Nat) :
    PResult AttributeInfo :=
  (length_count be_u16 be_u16 bytes).bind fun input exception_index_table =>
  .ok input (.Exceptions exception_index_table)

/-- Embedding of `attribute_inner_classes_from_bytes`. -/
def attribute_inner_classes_from_bytes (bytes : List Nat) :
    PResult AttributeInfo :=
  (length_count be_u16 inner_class_from_bytes bytes).bind fun input classes =>
  .ok input (.InnerClasses classes)

/-- Embedding of `attribute_line_number_table_from_bytes`. -/
def attribute_line_number_table_from_bytes (bytes : List Nat) :
    PResult AttributeInfo :=
  (length_count be_u16 line_number_from_bytes bytes).bind
    fun input line_number_table =>
  .ok input (.LineNumberTable line_number_table)

/-- Embedding of `attribute_local_variable_table_from_bytes`. -/
def attribute_local_variable_table_from_bytes (bytes : List Nat) :
    PResult AttributeInfo :=
  (length_count be_u16 local_variable_from_bytes bytes).bind
    fun input local_variable_table =>
  .ok input (.LocalVariableTable local_variable_table)

/-- Embedding of `attribute_local_variable_type_table_from_bytes`. -/
def attribute_local_variable_type_table_from_bytes (bytes : List Nat) :
    PResult AttributeInfo :=
  (length_count be_u16 local_variable_type_from_bytes bytes).bind
    fun input local_variable_type_table =>
  .ok input (.LocalVariableTypeTable local_variable_type_table)

/-- Embedding of `attribute_method_parameters_from_bytes`. -/
def attribute_method_parameters_from_bytes (bytes : List Nat) :
    PResult AttributeInfo :=
  (length_count be_u16 method_parameter_from_bytes bytes).bind
    fun input parameters =>
  .ok input (.MethodParameters parameters)

/-- Embedding of `attribute_module_from_bytes`. -/
def attribute_module_from_bytes (bytes : List Nat) : PResult AttributeInfo :=
  (be_u16 bytes).bind fun input_1 module_name_index =>
  (be_u16 input_1).bind fun input_2 module_flags =>
  (be_u16 input_2).bind fun input_3 module_version_index =>
  (length_count be_u16 module_require_from_bytes input_3).bind
    fun input_4 requires =>
  (length_count be_u16 module_export_from_bytes input_4).bind
    fun input_5 exports =>
  (length_count be_u16 module_opens_from_bytes input_5).bind
    fun input_6 opens =>
  (length_count be_u16 be_u16 input_6).bind fun input_7 uses =>
  (length_count be_u16 module_provides_from_bytes input_7).bind
    fun input_8 provides =>
  .ok input_8 (.Module module_name_index module_flags module_version_index
    requires exports opens uses provides)

/-- Embedding of `attribute_module_main_class_from_bytes`. -/
def attribute_module_main_class_from_bytes (bytes : List Nat) :
    PResult AttributeInfo :=
  (be_u16 bytes).bind fun input main_class_index =>
  .ok input (.ModuleMainClass main_class_index)

/-- Embedding of `attribute_module_packages_from_bytes`. -/
def attribute_module_packages_from_bytes (bytes : List Nat) :
    PResult AttributeInfo :=
  (length_count be_u16 be_u16 bytes).bind fun input package_index =>
  .ok input (.ModulePackages package_index)

/-- Embedding of `attribute_nest_host_from_bytes`. -/
def attribute_nest_host_from_bytes (bytes : List Nat) :
    PResult AttributeInfo :=
  (be_u16 bytes).bind fun input host_class_index =>
  .ok input (.NestHost host_class_index)

/-- Embedding of `attribute_nest_members_from_bytes`. -/
def attribute_nest_members_from_bytes (bytes : List Nat) :
    PResult AttributeInfo :=
  (length_count be_u16 be_u16 bytes).bind fun input classes =>
  .ok input (.NestMembers classes)

/-- Embedding of `attribute_permitted_subclasses_from_bytes`. -/
def attribute_permitted_subclasses_from_bytes (bytes : List Nat) :
    PResult AttributeInfo :=
  (length_count be_u16 be_u16 bytes).bind fun input classes =>
  .ok input (.PermittedSubclasses classes)

/-- Embedding of `attribute_signature_from_bytes`. -/
def attribute_signature_from_bytes (bytes : List Nat) :
    PResult AttributeInfo :=
  (be_u16 bytes).bind fun input signature_index =>
  .ok input (.Signature signature_index)

/-- Embedding of `attribute_source_debug_extension_from_bytes`: the one body
decoder that consumes exactly the declared `length`. -/
def attribute_source_debug_extension_from_bytes (bytes : List Nat)
    (length : Nat) : PResult AttributeInfo :=
  (takeBytes length bytes).bind fun input debug_extension =>
  .ok input (.SourceDebugExtension debug_extension)

mutual

/-- Embedding of `attribute_from_bytes`.  Reads `attribute_name_index`, then
evaluates `constant_pool[attribute_name_index as usize - 1]`: with index `0`
the `usize` subtraction underflows, and with `index - 1 ≥ pool.length` the
slice access is out of bounds — both are Rust panics, modelled `.panic`.  A
non-`Utf8` entry takes the `let … else` branch:
`Err::Failure(ErrorKind::IsNot)`.  Then the declared 4-byte `length` is read,
the name is converted from modified UTF-8 (failure:
`Err::Failure(ErrorKind::Verify)`), and the name string selects a body
decoder; `"SourceFile"`, `"StackMapTable"` and `"Synthetic"` are `todo!()`
(a panic); every other unrecognized name is `Err::Failure(ErrorKind::Tag)`. -/
def attribute_from_bytes : Nat → List ConstantPoolEntry → List Nat →
    PResult Attribute
  | 0, _, _ => .outOfFuel
  | fuel + 1, constant_pool, bytes =>
    (be_u16 bytes).bind fun input_1 attribute_name_index =>
    if attribute_name_index = 0 then .panic
    else
      match constant_pool.get? (attribute_name_index - 1) with
      | none => .panic
      | some (ConstantPoolEntry.Utf8 nameBytes) =>
        (be_u32 input_1).bind fun input_2 length =>
        match mutf8_to_utf8 nameBytes with
        | none => .err (.failure .Verify)
        | some utf8 =>
          (if utf8 = asciiBytes "AnnotationDefault" then
            attribute_annotation_default_from_bytes fuel input_2
          else if utf8 = asciiBytes "BootstrapMethods" then
            attribute_bootstrap_methods_from_bytes input_2
          else if utf8 = asciiBytes "Code" then
            attribute_code_from_bytes fuel constant_pool input_2
          else if utf8 = asciiBytes "ConstantValue" then
            attribute_constant_value_from_bytes input_2
          else if utf8 = asciiBytes "Deprecated" then
            .ok input_2 AttributeInfo.Deprecated
          else if utf8 = asciiBytes "EnclosingMethod" then
            attribute_enclosing_method_from_bytes input_2
          else if utf8 = asciiBytes "Exceptions" then
            attribute_exceptions_from_bytes input_2
          else if utf8 = asciiBytes "InnerClasses" then
            attribute_inner_classes_from_bytes input_2
          else if utf8 = asciiBytes "LineNumberTable" then
            attribute_line_number_table_from_bytes input_2
          else if utf8 = asciiBytes "LocalVariableTable" then
            attribute_local_variable_table_from_bytes input_2
          else if utf8 = asciiBytes "LocalVariableTypeTable" then
            attribute_local_variable_type_table_from_bytes input_2
          else if utf8 = asciiBytes "MethodParameters" then
            attribute_method_parameters_from_bytes input_2
          else if utf8 = asciiBytes "Module" then
            attribute_module_from_bytes input_2
          else if utf8 = asciiBytes "ModuleMainClass" then
            attribute_module_main_class_from_bytes input_2
          else if utf8 = asciiBytes "ModulePackages" then
            attribute_module_packages_from_bytes input_2
          else if utf8 = asciiBytes "NestHost" then
            attribute_nest_host_from_bytes input_2
          else if utf8 = asciiBytes "NestMembers" then
            attribute_nest_members_from_bytes input_2
          else if utf8 = asciiBytes "PermittedSubclasses" then
            attribute_permitted_subclasses_from_bytes input_2
          else if utf8 = asciiBytes "Record" then
            attribute_record_from_bytes fuel constant_pool input_2
          else if utf8 = asciiBytes "RuntimeInvisibleAnnotations" then
            attribute_runtime_invisible_annotations_from_bytes fuel input_2
          else if utf8 = asciiBytes "RuntimeInvisibleParameterAnnotations" then
            attribute_runtime_invisible_parameter_annotations_from_bytes fuel
              input_2
          else if utf8 = asciiBytes "RuntimeInvisibleTypeAnnotations" then
            attribute_runtime_invisible_type_annotations_from_bytes fuel
              input_2
          else if utf8 = asciiBytes "RuntimeVisibleAnnotations" then
            attribute_runtime_visible_annotations_from_bytes fuel input_2
          else if utf8 = asciiBytes "RuntimeVisibleParameterAnnotations" then
            attribute_runtime_visible_parameter_annotations_from_bytes fuel
              input_2
          else if utf8 = asciiBytes "RuntimeVisibleTypeAnnotations" then
            attribute_runtime_visible_type_annotations_from_bytes fuel input_2
          else if utf8 = asciiBytes "Signature" then
            attribute_signature_from_bytes input_2
          else if utf8 = asciiBytes "SourceDebugExtension" then
            attribute_source_debug_extension_from_bytes input_2 length
          else if utf8 = asciiBytes "SourceFile" then
            .panic
          else if utf8 = asciiBytes "StackMapTable" then
            .panic
          else if utf8 = asciiBytes "Synthetic" then
            .panic
          else .err (.failure .Tag)).mapv Attribute.mk
      | some _ => .err (.failure .IsNot)

/-- The `length_count(be_u16, |bytes| attribute_from_bytes(bytes, pool))`
iteration, re-stated with fuel for the mutual recursion. -/
def attrs_count : Nat → List ConstantPoolEntry → Nat → List Nat →
    PResult (List Attribute)
  | 0, _, _, _ => .outOfFuel
  | _ + 1, _, 0, input => .ok input []
  | fuel + 1, constant_pool, n + 1, input =>
    (attribute_from_bytes fuel constant_pool input).bind fun rest a =>
    (attrs_count fuel constant_pool n rest).mapv fun as => a :: as

/-- Embedding of `attribute_annotation_default_from_bytes`. -/
def attribute_annotation_default_from_bytes : Nat → List Nat →
    PResult AttributeInfo
  | 0, _ => .outOfFuel
  | fuel + 1, bytes =>
    (element_value_from_bytes fuel bytes).bind fun input element_value =>
    .ok input (.AnnotationDefault element_value)

/-- Embedding of `attribute_code_from_bytes`: `max_stack`, `max_locals`, a
2-byte `code_length`, that many raw code bytes, the exception table, and the
nested attribute list (through `attribute_from_bytes` again). -/
def attribute_code_from_bytes : Nat → List ConstantPoolEntry → List Nat →
    PResult AttributeInfo
  | 0, _, _ => .outOfFuel
  | fuel + 1, constant_pool, bytes =>
    (be_u16 bytes).bind fun input_1 max_stack =>
    (be_u16 input_1).bind fun input_2 max_locals =>
    (be_u16 input_2).bind fun input_3 code_length =>
    (takeBytes code_length input_3).bind fun input_4 code =>
    (exception_table_from_bytes input_4).bind fun input_5 exception_table =>
    (be_u16 input_5).bind fun input_6 n =>
    (attrs_count fuel constant_pool n input_6).bind fun input_7 attributes =>
    .ok input_7 (.Code max_stack max_locals code exception_table attributes)

/-- Embedding of `attribute_record_from_bytes`. -/
def attribute_record_from_bytes : Nat → List ConstantPoolEntry → List Nat →
    PResult AttributeInfo
  | 0, _, _ => .outOfFuel
  | fuel + 1, constant_pool, bytes =>
    (be_u16 bytes).bind fun input_1 n =>
    (record_components_count fuel constant_pool n input_1).bind
      fun input components =>
    .ok input (.Record components)

/-- The `length_count` iteration over record components, with fuel. -/
def record_components_count : Nat → List ConstantPoolEntry → Nat → List Nat →
    PResult (List RecordComponent)
  | 0, _, _, _ => .outOfFuel
  | _ + 1, _, 0, input => .ok input []
  | fuel + 1, constant_pool, n + 1, input =>
    (record_component_from_bytes fuel constant_pool input).bind fun rest c =>
    (record_components_count fuel constant_pool n rest).mapv fun cs => c :: cs

/-- Embedding of `record_component_from_bytes`. -/
def record_component_from_bytes : Nat → List ConstantPoolEntry → List Nat →
    PResult RecordComponent
  | 0, _, _ => .outOfFuel
  | fuel + 1, constant_pool, bytes =>
    (be_u16 bytes).bind fun input_1 name_index =>
    (be_u16 input_1).bind fun input_2 descriptor_index =>
    (be_u16 input_2).bind fun input_3 n =>
    (attrs_count fuel constant_pool n input_3).bind fun input_4 attributes =>
    .ok input_4 ⟨name_index, descriptor_index, attributes⟩

/-- Embedding of `attribute_runtime_invisible_annotations_from_bytes`. -/
def attribute_runtime_invisible_annotations_from_bytes : Nat → List Nat →
    PResult AttributeInfo
  | 0, _ => .outOfFuel
  | fuel + 1, bytes =>
    (be_u16 bytes).bind fun input_1 n =>
    (annotations_count fuel n input_1).bind fun input annotations =>
    .ok input (.RuntimeInvisibleAnnotations annotations)

/-- Embedding of
`attribute_runtime_invisible_parameter_annotations_from_bytes`. -/
def attribute_runtime_invisible_parameter_annotations_from_bytes :
    Nat → List Nat → PResult AttributeInfo
  | 0, _ => .outOfFuel
  | fuel + 1, bytes =>
    (be_u16 bytes).bind fun input_1 n =>
    (annotations_count fuel n input_1).bind fun input parameter_annotations =>
    .ok input (.RuntimeInvisibleParameterAnnotations parameter_annotations)

/-- Embedding of `attribute_runtime_invisible_type_annotations_from_bytes`. -/
def attribute_runtime_invisible_type_annotations_from_bytes :
    Nat → List Nat → PResult AttributeInfo
  | 0, _ => .outOfFuel
  | fuel + 1, bytes =>
    (be_u16 bytes).bind fun input_1 n =>
    (type_annotations_count fuel n input_1).bind fun input type_annotations =>
    .ok input (.RuntimeInvisibleTypeAnnotations type_annotations)

/-- Embedding of `attribute_runtime_visible_annotations_from_bytes`. -/
def attribute_runtime_visible_annotations_from_bytes : Nat → List Nat →
    PResult AttributeInfo
  | 0, _ => .outOfFuel
  | fuel + 1, bytes =>
    (be_u16 bytes).bind fun input_1 n =>
    (annotations_count fuel n input_1).bind fun input annotations =>
    .ok input (.RuntimeVisibleAnnotations annotations)

/-- Embedding of
`attribute_runtime_visible_parameter_annotations_from_bytes`. -/
def attribute_runtime_visible_parameter_annotations_from_bytes :
    Nat → List Nat → PResult AttributeInfo
  | 0, _ => .outOfFuel
  | fuel + 1, bytes =>
    (be_u16 bytes).bind fun input_1 n =>
    (annotations_count fuel n input_1).bind fun input parameter_annotations =>
    .ok input (.RuntimeVisibleParameterAnnotations parameter_annotations)

/-- Embedding of `attribute_runtime_visible_type_annotations_from_bytes`. -/
def attribute_runtime_visible_type_annotations_from_bytes :
    Nat → List Nat → PResult AttributeInfo
  | 0, _ => .outOfFuel
  | fuel + 1, bytes =>
    (be_u16 bytes).bind fun input_1 n =>
    (type_annotations_count fuel n input_1).bind fun input type_annotations =>
    .ok input (.RuntimeVisibleTypeAnnotations type_annotations)

/-- The `length_count` iteration over annotations, with fuel. -/
def annotations_count : Nat → Nat → List Nat → PResult (List Annotation)
  | 0, _, _ => .outOfFuel
  | _ + 1, 0, input => .ok input []
  | fuel + 1, n + 1, input =>
    (annotation_from_bytes fuel input).bind fun rest a =>
    (annotations_count fuel n rest).mapv fun as => a :: as

/-- Embedding of `annotation_from_bytes`. -/
def annotation_from_bytes : Nat → List Nat → PResult Annotation
  | 0, _ => .outOfFuel
  | fuel + 1, bytes =>
    (be_u16 bytes).bind fun input_1 type_index =>
    (be_u16 input_1).bind fun input_2 n =>
    (element_value_pairs_count fuel n input_2).bind
      fun input element_value_pairs =>
    .ok input ⟨type_index, element_value_pairs⟩

/-- The `length_count` iteration over element-value pairs, with fuel. -/
def element_value_pairs_count : Nat → Nat → List Nat →
    PResult (List ElementValuePair)
  | 0, _, _ => .outOfFuel
  | _ + 1, 0, input => .ok input []
  | fuel + 1, n + 1, input =>
    (element_value_pair_from_bytes fuel input).bind fun rest p =>
    (element_value_pairs_count fuel n rest).mapv fun ps => p :: ps

/-- Embedding of `element_value_pair_from_bytes`. -/
def element_value_pair_from_bytes : Nat → List Nat → PResult ElementValuePair
  | 0, _ => .outOfFuel
  | fuel + 1, bytes =>
    (be_u16 bytes).bind fun input_1 element_name_index =>
    (element_value_from_bytes fuel input_1).bind fun input_2 element_value =>
    .ok input_2 ⟨element_name_index, element_value⟩

/-- Embedding of `element_value_from_bytes`: a one-byte tag matched as a
character.  The ASCII values of the source's arms are `'B' = 66`, `'C' = 67`,
`'D' = 68`, `'F' = 70`, `'I' = 73`, `'J' = 74`, `'S' = 83`, `'Z' = 90`,
`'s' = 115`, `'e' = 101`, `'c' = 99`, `'@' = 64`, `'[' = 91`; any other tag
is `Err::Failure(ErrorKind::Tag)`. -/
def element_value_from_bytes : Nat → List Nat → PResult ElementValue
  | 0, _ => .outOfFuel
  | fuel + 1, bytes =>
    (be_u8 bytes).bind fun input_1 tag =>
    if tag = 66 ∨ tag = 67 ∨ tag = 68 ∨ tag = 70 ∨ tag = 73 ∨ tag = 74 ∨
        tag = 83 ∨ tag = 90 ∨ tag = 115 then
      (be_u16 input_1).bind fun input_2 const_value_index =>
      .ok input_2 (.ConstValue const_value_index)
    else if tag = 101 then
      (be_u16 input_1).bind fun input_2 type_name_index =>
      (be_u16 input_2).bind fun input_3 const_name_index =>
      .ok input_3 (.EnumConst type_name_index const_name_index)
    else if tag = 99 then
      (be_u16 input_1).bind fun input_2 class_info_index =>
      .ok input_2 (.ClassInfo class_info_index)
    else if tag = 64 then
      (annotation_from_bytes fuel input_1).mapv ElementValue.AnnotationV
    else if tag = 91 then
      (be_u16 input_1).bind fun input_2 n =>
      (element_values_count fuel n input_2).bind fun input_3 values =>
      .ok input_3 (.Array values)
    else .err (.failure .Tag)

/-- The `length_count` iteration over element values (the `'['` arm), with
fuel. -/
def element_values_count : Nat → Nat → List Nat → PResult (List ElementValue)
  | 0, _, _ => .outOfFuel
  | _ + 1, 0, input => .ok input []
  | fuel + 1, n + 1, input =>
    (element_value_from_bytes fuel input).bind fun rest v =>
    (element_values_count fuel n rest).mapv fun vs => v :: vs

/-- Embedding of `type_annotation_from_bytes`. -/
def type_annotation_from_bytes : Nat → List Nat → PResult TypeAnnotation
  | 0, _ => .outOfFuel
  | fuel + 1, bytes =>
    (be_u8 bytes).bind fun input_1 target_type =>
    (target_info_from_bytes input_1 target_type).bind fun input_2 target_info =>
    (type_path_from_bytes input_2).bind fun input_3 target_path =>
    (be_u16 input_3).bind fun input_4 type_index =>
    (be_u16 input_4).bind fun input_5 n =>
    (element_value_pairs_count fuel n input_5).bind
      fun input element_value_pairs =>
    .ok input ⟨target_type, target_info, target_path, type_index,
      element_value_pairs⟩

/-- The `length_count` iteration over type annotations, with fuel. -/
def type_annotations_count : Nat → Nat → List Nat →
    PResult (List TypeAnnotation)
  | 0, _, _ => .outOfFuel
  | _ + 1, 0, input => .ok input []
  | fuel + 1, n + 1, input =>
    (type_annotation_from_bytes fuel input).bind fun rest t =>
    (type_annotations_count fuel n rest).mapv fun ts => t :: ts

/-- Embedding of `field_from_bytes`. -/
def field_from_bytes : Nat → List ConstantPoolEntry → List Nat → PResult Field
  | 0, _, _ => .outOfFuel
  | fuel + 1, constant_pool, bytes =>
    (be_u16 bytes).bind fun input_1 access_flags =>
    (be_u16 input_1).bind fun input_2 name_index =>
    (be_u16 input_2).bind fun input_3 descriptor_index =>
    (be_u16 input_3).bind fun input_4 n =>
    (attrs_count fuel constant_pool n input_4).bind fun input_5 attributes =>
    .ok input_5 ⟨access_flags, name_index, descriptor_index, attributes⟩

/-- The `length_count` iteration over fields, with fuel. -/
def fields_count : Nat → List ConstantPoolEntry → Nat → List Nat →
    PResult (List Field)
  | 0, _, _, _ => .outOfFuel
  | _ + 1, _, 0, input => .ok input []
  | fuel + 1, constant_pool, n + 1, input =>
    (field_from_bytes fuel constant_pool input).bind fun rest f =>
    (fields_count fuel constant_pool n rest).mapv fun fs => f :: fs

/-- Embedding of `method_from_bytes`. -/
def method_from_bytes : Nat → List ConstantPoolEntry → List Nat →
    PResult Method
  | 0, _, _ => .outOfFuel
  | fuel + 1, constant_pool, bytes =>
    (be_u16 bytes).bind fun input_1 access_flags =>
    (be_u16 input_1).bind fun input_2 name_index =>
    (be_u16 input_2).bind fun input_3 descriptor_index =>
    (be_u16 input_3).bind fun input_4 n =>
    (attrs_count fuel constant_pool n input_4).bind fun input_5 attributes =>
    .ok input_5 ⟨access_flags, name_index, descriptor_index, attributes⟩

/-- The `length_count` iteration over methods, with fuel. -/
def methods_count : Nat → List ConstantPoolEntry → Nat → List Nat →
    PResult (List Method)
  | 0, _, _, _ => .outOfFuel
  | _ + 1, _, 0, input => .ok input []
  | fuel + 1, constant_pool, n + 1, input =>
    (method_from_bytes fuel constant_pool input).bind fun rest m =>
    (methods_count fuel constant_pool n rest).mapv fun ms => m :: ms

end

/-- Embedding of `classfile_from_bytes`: magic tag, version, the constant
pool via `length_count(be_u16, constant_pool_entry_from_bytes)` (note: the
count read is the number of entries decoded), access flags, this/super class,
interfaces, fields, methods and class-level attributes.  The fuel
`bytes.length + 4` passed to the recursive decoders is ample: every recursive
descent consumes input bytes. -/
def classfile_from_bytes (bytes : List Nat) : PResult Classfile :=
  (tagBytes [0xCA, 0xFE, 0xBA, 0xBE] bytes).bind fun input_1 _ =>
  (classfile_version_from_bytes input_1).bind fun input_2 version =>
  (length_count be_u16 constant_pool_entry_from_bytes input_2).bind
    fun input_3 constant_pool =>
  (be_u16 input_3).bind fun input_4 access_flags =>
  (be_u16 input_4).bind fun input_5 this_class =>
  (be_u16 input_5).bind fun input_6 super_class =>
  (length_count be_u16 be_u16 input_6).bind fun input_7 interfaces =>
  (be_u16 input_7).bind fun input_7a nf =>
  (fields_count (bytes.length + 4) constant_pool nf input_7a).bind
    fun input_8 fields =>
  (be_u16 input_8).bind fun input_8a nm =>
  (methods_count (bytes.length + 4) constant_pool nm input_8a).bind
    fun input_9 methods =>
  (be_u16 input_9).bind fun input_9a na =>
  (attrs_count (bytes.length + 4) constant_pool na input_9a).bind
    fun input_10 attributes =>
  .ok input_10 ⟨version, constant_pool, access_flags, this_class, super_class,
    interfaces, fields, methods, attributes⟩

/-- Modelled from the spec: error outcomes of the stack-map decoder.  The
decoder itself is missing from the sources (`"StackMapTable" => todo!()` in
`attribute_from_bytes`); only the data declaration `StackMapFrame` in
`spec.rs` and that caller exist.  §7 names `ReservedFrameTag` for the
reserved 128–246 band and `UnexpectedEof` for truncation. -/
inductive StackMapErr where
  | ReservedFrameTag (b : Nat)
  | UnexpectedEof
  | UnknownVerificationTag (b : Nat)
deriving DecidableEq, Repr

/-- Modelled from the spec: the verification-type decoder of §4.6 — absent
from the sources, where the whole stack-map decoder is `todo!()`.  "Each
`VerificationTypeInfo` reads a 1-byte tag selecting one of 7 plain kinds or
one of 2 kinds carrying an extra field (`Object` carries a constant-pool
index; `Uninitialized` carries a bytecode offset)."  The spec does not list
the numeric tag values; the class-file format's assignment (0 = top,
1 = integer, 2 = float, 3 = double, 4 = long, 5 = null,
6 = uninitializedThis, 7 = object, 8 = uninitialized) is used. -/
def verification_type_info_from_bytes (input : List Nat) :
    Except StackMapErr (List Nat × VerificationTypeInfo) :=
  match input with
  | [] => .error .UnexpectedEof
  | 0 :: rest => .ok (rest, .TopVariable)
  | 1 :: rest => .ok (rest, .IntegerVariable)
  | 2 :: rest => .ok (rest, .FloatVariable)
  | 3 :: rest => .ok (rest, .DoubleVariable)
  | 4 :: rest => .ok (rest, .LongVariable)
  | 5 :: rest => .ok (rest, .NullVariable)
  | 6 :: rest => .ok (rest, .UninitializedThisVariable)
  | 7 :: i0 :: i1 :: rest => .ok (rest, .ObjectVariable (256 * i0 + i1))
  | 7 :: _ => .error .UnexpectedEof
  | 8 :: o0 :: o1 :: rest => .ok (rest, .UninitializedVariable (256 * o0 + o1))
  | 8 :: _ => .error .UnexpectedEof
  | b :: _ => .error (.UnknownVerificationTag b)

/-- Modelled from the spec: a fixed-count sequence of verification types, as
read by the `AppendFrame`/`FullFrame` shapes of §4.6. -/
def verification_type_list (n : Nat) (input : List Nat) :
    Except StackMapErr (List Nat × List VerificationTypeInfo) :=
  match n with
  | 0 => .ok (input, [])
  | n + 1 =>
    match verification_type_info_from_bytes input with
    | .error e => .error e
    | .ok (rest, v) =>
      match verification_type_list n rest with
      | .error e => .error e
      | .ok (rest2, vs) => .ok (rest2, v :: vs)

/-- Modelled from the spec: the stack-map frame decoder of §4.6, absent from
the sources (`"StackMapTable" => todo!()`).  One leading byte is range-tested
against the 7 bands of §3: `SameFrame` 0–63, `SameLocals1StackItemFrame`
64–127, reserved 128–246 (fails with `ReservedFrameTag`),
`SameLocals1StackItemFrameExtended` 247, `ChopFrame` 248–250,
`SameFrameExtended` 251, `AppendFrame` 252–254, `FullFrame` 255.
`AppendFrame` and `FullFrame` read count-prefixed verification-type
sequences (`FullFrame`: locals, then operand stack), per §4.6's wording.
The leading byte is a `u8`, so the final band is exactly 255. -/
def stack_map_frame_from_bytes (input : List Nat) :
    Except StackMapErr (List Nat × StackMapFrame) :=
  match input with
  | [] => .error .UnexpectedEof
  | b :: rest =>
    if b ≤ 63 then .ok (rest, .SameFrame)
    else if b ≤ 127 then
      match verification_type_info_from_bytes rest with
      | .error e => .error e
      | .ok (rest1, s) => .ok (rest1, .SameLocals1StackItemFrame s)
    else if b ≤ 246 then .error (.ReservedFrameTag b)
    else if b = 247 then
      match rest with
      | o0 :: o1 :: rest1 =>
        match verification_type_info_from_bytes rest1 with
        | .error e => .error e
        | .ok (rest2, s) =>
          .ok (rest2, .SameLocals1StackItemFrameExtended (256 * o0 + o1) s)
      | _ => .error .UnexpectedEof
    else if b ≤ 250 then
      match rest with
      | o0 :: o1 :: rest1 => .ok (rest1, .ChopFrame (256 * o0 + o1))
      | _ => .error .UnexpectedEof
    else if b = 251 then
      match rest with
      | o0 :: o1 :: rest1 => .ok (rest1, .SameFrameExtended (256 * o0 + o1))
      | _ => .error .UnexpectedEof
    else if b ≤ 254 then
      match rest with
      | o0 :: o1 :: c0 :: c1 :: rest1 =>
        match verification_type_list (256 * c0 + c1) rest1 with
        | .error e => .error e
        | .ok (rest2, locals) =>
          .ok (rest2, .AppendFrame (256 * o0 + o1) locals)
      | _ => .error .UnexpectedEof
    else
      match rest with
      | o0 :: o1 :: c0 :: c1 :: rest1 =>
        match verification_type_list (256 * c0 + c1) rest1 with
        | .error e => .error e
        | .ok (rest2, locals) =>
          match rest2 with
          | d0 :: d1 :: rest3 =>
            match verification_type_list (256 * d0 + d1) rest3 with
            | .error e => .error e
            | .ok (rest4, stack) =>
              .ok (rest4, .FullFrame (256 * o0 + o1) locals stack)
          | _ => .error .UnexpectedEof
      | _ => .error .UnexpectedEof

/-- The spec's §8 minimal class-file scenario: magic, minor `0x0000`, major
`0x0034`, `pool_count = 0x0001`, then access flags, this/super class,
interface count, field count, method count and attribute count all zero. -/
def minimalClassfileBytes : List Nat :=
  [0xCA, 0xFE, 0xBA, 0xBE, 0x00, 0x00, 0x00, 0x34, 0x00, 0x01,
   0x00, 0x00, 0x00, 0x00, 0x00, 0x00, 0x00, 0x00, 0x00, 0x00,
   0x00, 0x00, 0x00, 0x00]

/-- The minimal buffer with `pool_count = 0x0001` and one live `Class` entry
(tag 7, name index 5) appended after the count — the shape the decoder as
written actually accepts, exhibiting that it reads `count` entries rather
than `count − 1`. -/
def oneEntryClassfileBytes : List Nat :=
  [0xCA, 0xFE, 0xBA, 0xBE, 0x00, 0x00, 0x00, 0x34, 0x00, 0x01,
   0x07, 0x00, 0x05,
   0x00, 0x00, 0x00, 0x00, 0x00, 0x00, 0x00, 0x00, 0x00, 0x00,
   0x00, 0x00, 0x00, 0x00]

/-- A constant pool whose single entry is the `Utf8` name `"Code"`. -/
def codePool : List ConstantPoolEntry := [.Utf8 (asciiBytes "Code")]

/-- An attribute record consisting of a `Code` attribute nested inside itself
`n` times: name index 1, declared length 0 (the decoder never checks it),
`max_stack = max_locals = 0`, `code_length = 0`, empty exception table, and —
at depth `n + 1` — zero nested attributes, otherwise exactly one nested
attribute of the same shape. -/
def nestedCodeAttr : Nat → List Nat
  | 0 => [0, 1, 0, 0, 0, 0, 0, 0, 0, 0, 0, 0, 0, 0, 0, 0]
  | n + 1 =>
    [0, 1, 0, 0, 0, 0, 0, 0, 0, 0, 0, 0, 0, 0, 0, 1] ++ nestedCodeAttr n

/-- The attribute tree `nestedCodeAttr n` decodes to: `n + 1` nested `Code`
attribute levels. -/
def nestedCodeTree : Nat → Attribute
  | 0 => ⟨.Code 0 0 [] [] []⟩
  | n + 1 => ⟨.Code 0 0 [] [] [nestedCodeTree n]⟩

/-- Fuel sufficient to decode `nestedCodeAttr n`: three units per nesting
level. -/
def nestFuel : Nat → Nat
  | 0 => 3
  | n + 1 => nestFuel n + 3

/-- The attribute names `attribute_from_bytes` dispatches on, in the order of
the source's match arms (including the three arms whose bodies are
`todo!()`). -/
def handledAttributeNames : List (List Nat) :=
  [asciiBytes "AnnotationDefault", asciiBytes "BootstrapMethods",
   asciiBytes "Code", asciiBytes "ConstantValue", asciiBytes "Deprecated",
   asciiBytes "EnclosingMethod", asciiBytes "Exceptions",
   asciiBytes "InnerClasses", asciiBytes "LineNumberTable",
   asciiBytes "LocalVariableTable", asciiBytes "LocalVariableTypeTable",
   asciiBytes "MethodParameters", asciiBytes "Module",
   asciiBytes "ModuleMainClass", asciiBytes "ModulePackages",
   asciiBytes "NestHost", asciiBytes "NestMembers",
   asciiBytes "PermittedSubclasses", asciiBytes "Record",
   asciiBytes "RuntimeInvisibleAnnotations",
   asciiBytes "RuntimeInvisibleParameterAnnotations",
   asciiBytes "RuntimeInvisibleTypeAnnotations",
   asciiBytes "RuntimeVisibleAnnotations",
   asciiBytes "RuntimeVisibleParameterAnnotations",
   asciiBytes "RuntimeVisibleTypeAnnotations", asciiBytes "Signature",
   asciiBytes "SourceDebugExtension", asciiBytes "SourceFile",
   asciiBytes "StackMapTable", asciiBytes "Synthetic"]

/-- Unfolding of `be_u16` on an input with at least two bytes exposed. -/
theorem be_u16_cons (b0 b1 : Nat) (rest : List Nat) :
    be_u16 (b0 :: b1 :: rest) = .ok rest (256 * b0 + b1) := rfl

/-- Evaluating `countP n p` returns exactly `n` parsed elements. -/
theorem countP_length (p : List Nat → PResult α) (n : Nat) :
    ∀ input rest xs, countP n p input = .ok rest xs → xs.length = n := by
  induction n with
  | zero =>
    intro input rest xs h
    simp only [countP] at h
    cases h
    rfl
  | succ n ih =>
    intro input rest xs h
    simp only [countP] at h
    cases hp : p input with
    | ok r1 a =>
      rw [hp] at h
      simp only [PResult.bind] at h
      cases hc : countP n p r1 with
      | ok r2 as =>
        rw [hc] at h
        simp only [PResult.mapv] at h
        cases h
        simpa using ih r1 _ as hc
      | err e => rw [hc] at h; simp [PResult.mapv] at h
      | panic => rw [hc] at h; simp [PResult.mapv] at h
      | outOfFuel => rw [hc] at h; simp [PResult.mapv] at h
    | err e => rw [hp] at h; simp [PResult.bind] at h
    | panic => rw [hp] at h; simp [PResult.bind] at h
    | outOfFuel => rw [hp] at h; simp [PResult.bind] at h

/-- With any positive fuel, a zero-count attribute loop succeeds at once. -/
theorem attrs_count_zero (f : Nat) (pool : List ConstantPoolEntry)
    (input : List Nat) (hf : 1 ≤ f) :
    attrs_count f pool 0 input = .ok input [] := by
  obtain ⟨m, rfl⟩ : ∃ m, f = m + 1 := ⟨f - 1, by omega⟩
  rfl

/-- The fuel schedule for nested `Code` attributes is positive. -/
theorem nestFuel_pos (n : Nat) : 1 ≤ nestFuel n := by
  induction n with
  | zero => decide
  | succ n ih => simp only [nestFuel]; omega

/-- Conversion of the name `"Code"` through the modelled text converter. -/
theorem mutf8_code : mutf8_to_utf8 (asciiBytes "Code") =
    some (asciiBytes "Code") := rfl

/-- Wrapping one more `Code` level around a decodable attribute keeps it
decodable, with three more units of fuel. -/
theorem nested_code_step (f : Nat) (t : List Nat) (a : Attribute)
    (ih : attribute_from_bytes f codePool t = .ok [] a)
    (hz : attrs_count f codePool 0 [] = .ok [] []) :
    attribute_from_bytes (f + 3) codePool
      (0 :: 1 :: 0 :: 0 :: 0 :: 0 :: 0 :: 0 :: 0 :: 0 :: 0 :: 0 :: 0 :: 0 ::
        0 :: 1 :: t) = .ok [] ⟨.Code 0 0 [] [] [a]⟩ := by
  have h_attrs : attrs_count (f + 1) codePool 1 t = .ok [] [a] := by
    simp only [attrs_count, ih, PResult.bind, hz, PResult.mapv]
  have h_code : attribute_code_from_bytes (f + 2) codePool
      (0 :: 0 :: 0 :: 0 :: 0 :: 0 :: 0 :: 0 :: 0 :: 1 :: t) =
      .ok [] (.Code 0 0 [] [] [a]) := by
    show attribute_code_from_bytes (f + 1 + 1) codePool
      (0 :: 0 :: 0 :: 0 :: 0 :: 0 :: 0 :: 0 :: 0 :: 1 :: t) =
      .ok [] (.Code 0 0 [] [] [a])
    simp only [attribute_code_from_bytes, be_u16, PResult.bind, takeBytes,
      exception_table_from_bytes, length_count, countP, Nat.reduceMul,
      Nat.reduceAdd, h_attrs, reduceIte, Nat.le_refl, List.drop, List.take,
      Nat.zero_le, List.drop_zero, List.take_zero]
  have hget : codePool.get? (256 * 0 + 1 - 1) =
      some (ConstantPoolEntry.Utf8 (asciiBytes "Code")) := rfl
  show attribute_from_bytes (f + 2 + 1) codePool
    (0 :: 1 :: 0 :: 0 :: 0 :: 0 :: 0 :: 0 :: 0 :: 0 :: 0 :: 0 :: 0 :: 0 ::
      0 :: 1 :: t) = .ok [] ⟨.Code 0 0 [] [] [a]⟩
  simp only [attribute_from_bytes, be_u16, be_u32, PResult.bind, hget,
    mutf8_code]
  rw [if_neg (by decide : ¬(256 * 0 + 1 = 0))]
  rw [if_neg (by decide :
    ¬(asciiBytes "Code" = asciiBytes "AnnotationDefault"))]
  rw [if_neg (by decide :
    ¬(asciiBytes "Code" = asciiBytes "BootstrapMethods"))]
  rw [if_pos trivial, h_code]
  rfl

/-- C1: the claim states that a constant-pool `Long`/`Double` entry decodes
`(high, low)` to `(high << 32) | low`, with the fixed shift amount 32.  The
code instead computes `(high_bytes as u64) << 32 + low_bytes as u64`, which
by Rust operator precedence is `high << (32 + low)`: at `high = 1, low = 1`
both the `Long` and the `Double` entry decode to `2 ^ 33 = 8589934592`,
while the specified value is `(1 <<< 32) ||| 1 = 4294967297`. -/
theorem long_double_shift_precedence_bug :
    constant_pool_long_entry_from_bytes [0, 0, 0, 1, 0, 0, 0, 1] =
      .ok [] (.Long 8589934592)
  ∧ constant_pool_double_entry_from_bytes [0, 0, 0, 1, 0, 0, 0, 1] =
      .ok [] (.Double 8589934592)
  ∧ rustShlU64 1 (32 + 1) ≠ (1 <<< 32) ||| 1 :=
  ⟨rfl, rfl, by decide⟩

/-- C2: the claim states that the decoder reads a 2-byte pool count and
decodes `count − 1` entries, so that the spec's minimal buffer with
`pool_count = 0x0001` decodes to an empty-pool class file.  The code's
`length_count(be_u16, constant_pool_entry_from_bytes)` decodes `count`
entries: on the minimal buffer it consumes the first access-flag byte `0x00`
as a constant tag and fails with `UnknownConstantTag`
(`Err::Error(ErrorKind::Tag)`), and it accepts the same buffer with one live
entry appended (pool count still `0x0001`), producing a one-entry pool. -/
theorem constant_pool_count_off_by_one_bug :
    classfile_from_bytes minimalClassfileBytes = .err (.error .Tag)
  ∧ classfile_from_bytes oneEntryClassfileBytes =
      .ok [] ⟨⟨0, 52⟩, [.Class 5], 0, 0, 0, [], [], [], []⟩ :=
  ⟨rfl, rfl⟩

/-- C3: the claim states that an attribute whose `attribute_name_index` does
not exist (index 0 or past the pool) fails with
`ConstantPoolIndexOutOfRange`, and a non-`Utf8` entry with
`ConstantPoolTypeMismatch`, never aborting by other means.  The code's
`constant_pool[attribute_name_index as usize - 1]` panics on index 0 (`usize`
underflow) and on an index past the pool (slice out of bounds); only the
non-`Utf8` case returns the mismatch error (`Err::Failure(ErrorKind::IsNot)`)
without body decoding. -/
theorem attribute_name_index_panic_bug :
    (∀ fuel (pool : List ConstantPoolEntry) (rest : List Nat),
      attribute_from_bytes (fuel + 1) pool (0 :: 0 :: rest) = .panic)
  ∧ (∀ fuel (rest : List Nat),
      attribute_from_bytes (fuel + 1) [.Utf8 []] (0 :: 2 :: rest) = .panic)
  ∧ (∀ fuel (rest : List Nat),
      attribute_from_bytes (fuel + 1) [.Integer 5] (0 :: 1 :: rest) =
        .err (.failure .IsNot)) :=
  ⟨fun _ _ _ => rfl, fun _ _ => rfl, fun _ _ => rfl⟩

/-- C4: a `StackMapTable` frame with leading byte 255 followed by an
offset delta and zero locals/stack counts decodes to
`FullFrame{offset_delta, locals: [], stack: []}`, and the 7-band range test
rejects the reserved 128–246 band with `ReservedFrameTag`.  Settled against
the spec-modelled `stack_map_frame_from_bytes` (the source's decoder is
`todo!()`). -/
theorem stack_map_full_frame_decode :
    (∀ od0 od1 rest, stack_map_frame_from_bytes
        (255 :: od0 :: od1 :: 0 :: 0 :: 0 :: 0 :: rest) =
        .ok (rest, .FullFrame (256 * od0 + od1) [] []))
  ∧ (∀ b rest, 128 ≤ b → b ≤ 246 →
      stack_map_frame_from_bytes (b :: rest) =
        .error (.ReservedFrameTag b)) := by
  constructor
  · intro od0 od1 rest
    rfl
  · intro b rest h1 h2
    have hb63 : ¬b ≤ 63 := by omega
    have hb127 : ¬b ≤ 127 := by omega
    simp only [stack_map_frame_from_bytes, if_neg hb63, if_neg hb127,
      if_pos h2]

/-- Witness for `stack_map_full_frame_decode` at `offset_delta = 1` and at
reserved byte 200. -/
theorem stack_map_full_frame_decode_witness :
    stack_map_frame_from_bytes [255, 0, 1, 0, 0, 0, 0] =
      .ok ([], .FullFrame 1 [] [])
  ∧ stack_map_frame_from_bytes [200] = .error (.ReservedFrameTag 200) :=
  ⟨stack_map_full_frame_decode.1 0 1 [],
   stack_map_full_frame_decode.2 200 [] (by decide) (by decide)⟩

/-- C5: the claim states that every recognized attribute's body decoder
consumes exactly the declared 4-byte length and a mismatch is never
accepted.  The code reads the declared length but never checks it (only
`SourceDebugExtension` uses it): a `ConstantValue` attribute with declared
length 5 is accepted after consuming only 2 body bytes (the spare input is
returned as remaining), and one with declared length 0 is accepted after
consuming 2 body bytes beyond its declared body. -/
theorem attribute_declared_length_ignored_bug :
    attribute_from_bytes 2 [.Utf8 (asciiBytes "ConstantValue")]
      [0, 1, 0, 0, 0, 5, 0, 7, 99] = .ok [99] ⟨.ConstantValue 7⟩
  ∧ attribute_from_bytes 2 [.Utf8 (asciiBytes "ConstantValue")]
      [0, 1, 0, 0, 0, 0, 0, 7] = .ok [] ⟨.ConstantValue 7⟩ :=
  ⟨rfl, rfl⟩

/-- C6: the claim states that recursion through nested `Code` attribute
lists is bounded by an explicit maximum-nesting-depth limit, inputs beyond
the limit failing with `NestingTooDeep`.  The code has no such limit and no
such error: for every `n`, the attribute `nestedCodeAttr n` — a `Code`
attribute nested inside itself `n` times — decodes successfully (given fuel
proportional to `n`, mirroring the unbounded call stack the source
consumes), producing the tree `nestedCodeTree n` of nesting depth `n + 1`. -/
theorem nested_code_recursion_unbounded :
    ∀ n : Nat, attribute_from_bytes (nestFuel n) codePool (nestedCodeAttr n) =
      .ok [] (nestedCodeTree n) := by
  intro n
  induction n with
  | zero => rfl
  | succ n ih =>
    have hz : attrs_count (nestFuel n) codePool 0 [] = .ok [] [] :=
      attrs_count_zero _ _ _ (nestFuel_pos n)
    have step := nested_code_step (nestFuel n) (nestedCodeAttr n)
      (nestedCodeTree n) ih hz
    show attribute_from_bytes (nestFuel n + 3) codePool
      (nestedCodeAttr (n + 1)) = .ok [] (nestedCodeTree (n + 1))
    rw [show nestedCodeAttr (n + 1) = 0 :: 1 :: 0 :: 0 :: 0 :: 0 :: 0 :: 0 ::
      0 :: 0 :: 0 :: 0 :: 0 :: 0 :: 0 :: 1 :: nestedCodeAttr n from rfl]
    rw [show nestedCodeTree (n + 1) =
      ⟨.Code 0 0 [] [] [nestedCodeTree n]⟩ from rfl]
    exact step

/-- C7: `ElementValue` decoding dispatches on the tag byte: the nine constant
tags (`'B' 'C' 'D' 'F' 'I' 'J' 'S' 'Z' 's'` = 66, 67, 68, 70, 73, 74, 83,
90, 115) each read one 2-byte pool index; `'e'` (101) reads two indices;
`'c'` (99) one class-info index; `'@'` (64) a full nested annotation;
`'['` (91) a 2-byte-count-prefixed sequence of nested element values; any
other tag fails with `InvalidElementValueTag`
(`Err::Failure(ErrorKind::Tag)`).  The nested-array scenario
`[` count 2 of `[` count 0 decodes to `Array [Array [], Array []]`. -/
theorem element_value_tag_dispatch :
    (∀ fuel tag i0 i1 (rest : List Nat),
      tag ∈ ([66, 67, 68, 70, 73, 74, 83, 90, 115] : List Nat) →
      element_value_from_bytes (fuel + 1) (tag :: i0 :: i1 :: rest) =
        .ok rest (.ConstValue (256 * i0 + i1)))
  ∧ (∀ fuel i0 i1 j0 j1 (rest : List Nat),
      element_value_from_bytes (fuel + 1)
        (101 :: i0 :: i1 :: j0 :: j1 :: rest) =
        .ok rest (.EnumConst (256 * i0 + i1) (256 * j0 + j1)))
  ∧ (∀ fuel i0 i1 (rest : List Nat),
      element_value_from_bytes (fuel + 1) (99 :: i0 :: i1 :: rest) =
        .ok rest (.ClassInfo (256 * i0 + i1)))
  ∧ (∀ fuel (rest : List Nat),
      element_value_from_bytes (fuel + 1) (64 :: rest) =
        (annotation_from_bytes fuel rest).mapv ElementValue.AnnotationV)
  ∧ (∀ fuel c0 c1 (rest : List Nat),
      element_value_from_bytes (fuel + 1) (91 :: c0 :: c1 :: rest) =
        (element_values_count fuel (256 * c0 + c1) rest).bind
          (fun input_3 values => .ok input_3 (.Array values)))
  ∧ (∀ fuel tag (rest : List Nat),
      tag ∉ ([66, 67, 68, 70, 73, 74, 83, 90, 115, 101, 99, 64, 91] :
        List Nat) →
      element_value_from_bytes (fuel + 1) (tag :: rest) =
        .err (.failure .Tag))
  ∧ element_value_from_bytes 5 [91, 0, 2, 91, 0, 0, 91, 0, 0] =
      .ok [] (.Array [.Array [], .Array []]) := by
  refine ⟨?_, ?_, ?_, ?_, ?_, ?_, rfl⟩
  · intro fuel tag i0 i1 rest h
    simp only [List.mem_cons, List.not_mem_nil, or_false] at h
    simp only [element_value_from_bytes, be_u8, be_u16, PResult.bind]
    rw [if_pos h]
  · intro fuel i0 i1 j0 j1 rest
    rfl
  · intro fuel i0 i1 rest
    rfl
  · intro fuel rest
    rfl
  · intro fuel c0 c1 rest
    rfl
  · intro fuel tag rest h
    simp only [List.mem_cons, List.not_mem_nil, or_false, not_or] at h
    obtain ⟨h1, h2, h3, h4, h5, h6, h7, h8, h9, h10, h11, h12, h13⟩ := h
    simp only [element_value_from_bytes, be_u8, PResult.bind]
    rw [if_neg (by simp [h1, h2, h3, h4, h5, h6, h7, h8, h9]),
      if_neg h10, if_neg h11, if_neg h12, if_neg h13]

/-- Witness for `element_value_tag_dispatch`: each tag band applied at a
concrete input, the hypotheses discharged by `decide`. -/
theorem element_value_tag_dispatch_witness :
    element_value_from_bytes 1 [66, 0, 3] = .ok [] (.ConstValue 3)
  ∧ element_value_from_bytes 1 [101, 0, 1, 0, 2] = .ok [] (.EnumConst 1 2)
  ∧ element_value_from_bytes 1 [99, 0, 4] = .ok [] (.ClassInfo 4)
  ∧ element_value_from_bytes 1 [64, 0, 1, 0, 0] =
      (annotation_from_bytes 0 [0, 1, 0, 0]).mapv ElementValue.AnnotationV
  ∧ element_value_from_bytes 1 [91, 0, 0] =
      (element_values_count 0 0 []).bind
        (fun input_3 values => .ok input_3 (.Array values))
  ∧ element_value_from_bytes 1 [120, 9] = .err (.failure .Tag) :=
  ⟨element_value_tag_dispatch.1 0 66 0 3 [] (by decide),
   element_value_tag_dispatch.2.1 0 0 1 0 2 [],
   element_value_tag_dispatch.2.2.1 0 0 4 [],
   element_value_tag_dispatch.2.2.2.1 0 [0, 1, 0, 0],
   element_value_tag_dispatch.2.2.2.2.1 0 0 0 [],
   element_value_tag_dispatch.2.2.2.2.2.1 0 120 [9] (by decide)⟩

/-- C8: the decoded constant pool has exactly one sequence slot per decoded
wire entry, in wire order — a `Long`/`Double` entry takes a single slot and
no skip marker exists — and attribute-name resolution dereferences pool
index `i` at position `i − 1` of the decoded sequence: the entry found
there (and no other) decides between proceeding (`Utf8`) and the
type-mismatch failure. -/
theorem constant_pool_single_slot_indexing :
    (∀ n input rest (pool : List ConstantPoolEntry),
      countP n constant_pool_entry_from_bytes input = .ok rest pool →
      pool.length = n)
  ∧ countP 2 constant_pool_entry_from_bytes
      [5, 0, 0, 0, 1, 0, 0, 0, 0, 7, 0, 3] =
      .ok [] [.Long 4294967296, .Class 3]
  ∧ (∀ fuel (pool : List ConstantPoolEntry) i0 i1 (rest : List Nat)
      (e : ConstantPoolEntry), 256 * i0 + i1 ≠ 0 →
      pool.get? (256 * i0 + i1 - 1) = some e → (∀ bs, e ≠ .Utf8 bs) →
      attribute_from_bytes (fuel + 1) pool (i0 :: i1 :: rest) =
        .err (.failure .IsNot)) := by
  refine ⟨fun n input rest pool h => countP_length _ n input rest pool h,
    rfl, ?_⟩
  intro fuel pool i0 i1 rest e hidx hget hne
  simp only [attribute_from_bytes, be_u16, PResult.bind]
  rw [if_neg hidx, hget]
  cases e <;> first
    | rfl
    | exact absurd rfl (hne _)

/-- Witness for `constant_pool_single_slot_indexing`: the one-slot law
applied to the `Long`-then-`Class` pool of the second conjunct, and the
position-`i − 1` dereference applied to a one-entry non-`Utf8` pool at
index 1. -/
theorem constant_pool_single_slot_indexing_witness :
    ([ConstantPoolEntry.Long 4294967296, ConstantPoolEntry.Class 3] :
      List ConstantPoolEntry).length = 2
  ∧ attribute_from_bytes 1 [.Integer 7] [0, 1, 9] =
      .err (.failure .IsNot) :=
  ⟨constant_pool_single_slot_indexing.1 2
      [5, 0, 0, 0, 1, 0, 0, 0, 0, 7, 0, 3] [] _
      constant_pool_single_slot_indexing.2.1,
   constant_pool_single_slot_indexing.2.2 0 [.Integer 7] 0 1 [9]
      (.Integer 7) (by decide) rfl
      (fun bs h => ConstantPoolEntry.noConfusion h)⟩

/-- C9: an attribute whose resolved name is none of the names in the
dispatch table always fails — strict behavior is hardwired as
`Err::Failure(ErrorKind::Tag)` (`UnknownAttribute`), with no permissive
opaque-body mode; the failure is immediate for every remaining input, in
particular when fewer bytes than the declared length remain, so the
declared-length body is not skipped first. -/
theorem unknown_attribute_always_fails (fuel : Nat)
    (constant_pool : List ConstantPoolEntry) (i0 i1 l0 l1 l2 l3 : Nat)
    (rest name : List Nat)
    (hget : constant_pool.get? (256 * i0 + i1 - 1) = some (.Utf8 name))
    (hidx : 256 * i0 + i1 ≠ 0)
    (hascii : ∀ b ∈ name, 0 < b ∧ b ≤ 127)
    (hname : name ∉ handledAttributeNames) :
    attribute_from_bytes (fuel + 1) constant_pool
      (i0 :: i1 :: l0 :: l1 :: l2 :: l3 :: rest) =
      .err (.failure .Tag) := by
  have hmu : mutf8_to_utf8 name = some name := by
    unfold mutf8_to_utf8
    rw [if_pos hascii]
  simp only [handledAttributeNames, List.mem_cons, List.not_mem_nil,
    or_false, not_or] at hname
  obtain ⟨h1, h2, h3, h4, h5, h6, h7, h8, h9, h10, h11, h12, h13, h14, h15,
    h16, h17, h18, h19, h20, h21, h22, h23, h24, h25, h26, h27, h28, h29,
    h30⟩ := hname
  simp only [attribute_from_bytes, be_u16, be_u32, PResult.bind, hget, hmu]
  rw [if_neg hidx, if_neg h1, if_neg h2, if_neg h3, if_neg h4, if_neg h5,
    if_neg h6, if_neg h7, if_neg h8, if_neg h9, if_neg h10, if_neg h11,
    if_neg h12, if_neg h13, if_neg h14, if_neg h15, if_neg h16, if_neg h17,
    if_neg h18, if_neg h19, if_neg h20, if_neg h21, if_neg h22, if_neg h23,
    if_neg h24, if_neg h25, if_neg h26, if_neg h27, if_neg h28, if_neg h29,
    if_neg h30]
  rfl

/-- Witness for `unknown_attribute_always_fails`: the unrecognized ASCII
name `"Custom"` at pool index 1, with declared length 4 and no body bytes
at all. -/
theorem unknown_attribute_always_fails_witness :
    attribute_from_bytes 1 [.Utf8 (asciiBytes "Custom")]
      [0, 1, 0, 0, 0, 4] = .err (.failure .Tag) :=
  unknown_attribute_always_fails 0 [.Utf8 (asciiBytes "Custom")] 0 1 0 0 0 4
    [] (asciiBytes "Custom") rfl (by decide) (by decide) (by decide)

/-- C10: the `Code` body decoder reads the code length as a 2-byte
big-endian integer and takes exactly that many raw code bytes, so every
successfully decoded `Code` attribute has `max_stack` and `max_locals` from
the first two 16-bit reads and a code span of exactly the 2-byte length —
hence at most 65535 bytes. -/
theorem code_length_two_byte_bound (fuel : Nat)
    (constant_pool : List ConstantPoolEntry) (a b c d e f : Nat)
    (tail : List Nat) (rest : List Nat) (info : AttributeInfo)
    (he : e < 256) (hf : f < 256)
    (hok : attribute_code_from_bytes (fuel + 1) constant_pool
      (a :: b :: c :: d :: e :: f :: tail) = .ok rest info) :
    ∃ et ats, info = .Code (256 * a + b) (256 * c + d)
        (tail.take (256 * e + f)) et ats ∧
      (tail.take (256 * e + f)).length = 256 * e + f ∧
      256 * e + f ≤ 65535 := by
  simp only [attribute_code_from_bytes, be_u16_cons, PResult.bind, takeBytes]
    at hok
  by_cases hle : 256 * e + f ≤ tail.length
  · rw [if_pos hle] at hok
    simp only [PResult.bind] at hok
    cases hexc : exception_table_from_bytes (tail.drop (256 * e + f)) with
    | ok r1 et =>
      rw [hexc] at hok
      simp only [PResult.bind] at hok
      cases hn : be_u16 r1 with
      | ok r2 nn =>
        rw [hn] at hok
        simp only [PResult.bind] at hok
        cases hats : attrs_count fuel constant_pool nn r2 with
        | ok r3 ats =>
          rw [hats] at hok
          simp only [PResult.bind] at hok
          cases hok
          exact ⟨et, ats, rfl, by rw [List.length_take]; omega, by omega⟩
        | err e1 => rw [hats] at hok; simp [PResult.bind] at hok
        | panic => rw [hats] at hok; simp [PResult.bind] at hok
        | outOfFuel => rw [hats] at hok; simp [PResult.bind] at hok
      | err e1 => rw [hn] at hok; simp [PResult.bind] at hok
      | panic => rw [hn] at hok; simp [PResult.bind] at hok
      | outOfFuel => rw [hn] at hok; simp [PResult.bind] at hok
    | err e1 => rw [hexc] at hok; simp [PResult.bind] at hok
    | panic => rw [hexc] at hok; simp [PResult.bind] at hok
    | outOfFuel => rw [hexc] at hok; simp [PResult.bind] at hok
  · rw [if_neg hle] at hok
    simp [PResult.bind] at hok

/-- Witness for `code_length_two_byte_bound`: a `Code` body with
`code_length = 2`, code bytes `[7, 7]`, and empty exception/attribute
tables. -/
theorem code_length_two_byte_bound_witness :
    ∃ et ats, AttributeInfo.Code 0 0 [7, 7] [] [] =
        .Code (256 * 0 + 0) (256 * 0 + 0)
          (([7, 7, 0, 0, 0, 0] : List Nat).take (256 * 0 + 2)) et ats ∧
      (([7, 7, 0, 0, 0, 0] : List Nat).take (256 * 0 + 2)).length =
        256 * 0 + 2 ∧
      256 * 0 + 2 ≤ 65535 :=
  code_length_two_byte_bound 1 [] 0 0 0 0 0 2 [7, 7, 0, 0, 0, 0] []
    (.Code 0 0 [7, 7] [] []) (by decide) (by decide) rfl

end Caffeine
